import Mathlib

/-!
Shallow embedding of the buildcpg-labs core components:

* `DuckDBLoader` (src/lab3_hiring_signals/src/loader.py): batch insert of job
  records into the `raw_jobs` table with `ON CONFLICT (job_id) DO NOTHING`,
  returning a count derived from a `COUNT(*) ... WHERE job_id IN (...)` query.
* `CSVMonitor` (src/shared/utils/csv_monitor.py): change detection over CSV
  files with a persisted per-path state mapping.
* `DataInspector` (src/shared/utils/data_inspector.py): table statistics,
  duplicate / null checks and a bounded quality score over a DuckDB warehouse.

Python dictionaries of job fields become structures of `Option` fields
(`job["k"]` raising `KeyError` becomes an `Except` error; `job.get("k")`
passes the `Option` through).  The database table is a list of rows; the
uniqueness of the primary key is the `Nodup` of the projected id column.
Exceptions are modelled with `Except`, Python float arithmetic of the quality
score with `Rat` (all values are ratios of small integers), and `int(...)`
truncation with an explicit truncation toward zero on `Rat`.
-/

namespace BuildCpg

/-- Job record handed to the loader: every field a Python dict may or may not
contain.  `job["x"]` on a missing field raises, `job.get("x")` yields `None`. -/
structure Job where
  job_id : Option String := none
  company : Option String := none
  title : Option String := none
  description : Option String := none
  location : Option String := none
  posting_date : Option String := none
  url : Option String := none
  source : Option String := none
  scraped_at : Option String := none
deriving DecidableEq

/-- Row of the `raw_jobs` table, as built by the tuple comprehension in
`DuckDBLoader.load_jobs` (required fields looked up with `job[...]`,
optional ones with `job.get(...)`). -/
structure JobRow where
  job_id : String
  company : String
  title : String
  description : Option String
  location : Option String
  posting_date : Option String
  url : Option String
  source : String
  scraped_at : String
deriving DecidableEq

namespace DuckDBLoader

/-- Tuple construction for one job inside the `rows = [...]` comprehension of
`load_jobs`: the required fields are accessed with `job[...]`, so a missing
one raises `KeyError` (the error value names the missing key). -/
def buildRow (j : Job) : Except String JobRow :=
  match j.job_id with
  | none => .error "job_id"
  | some jid =>
    match j.company with
    | none => .error "company"
    | some comp =>
      match j.title with
      | none => .error "title"
      | some titl =>
        match j.source with
        | none => .error "source"
        | some src =>
          match j.scraped_at with
          | none => .error "scraped_at"
          | some scr =>
            .ok ⟨jid, comp, titl, j.description, j.location, j.posting_date, j.url,
                 src, scr⟩

/-- The whole `rows = [...]` comprehension: rows are built left to right and
the first record with a missing required field raises, before any insert. -/
def buildRows : List Job → Except String (List JobRow)
  | [] => .ok []
  | j :: js =>
    match buildRow j with
    | .error e => .error e
    | .ok r =>
      match buildRows js with
      | .error e => .error e
      | .ok rs => .ok (r :: rs)

/-- One `INSERT ... ON CONFLICT (job_id) DO NOTHING`: if a row with the same
`job_id` is already in the table nothing happens, otherwise the row is
appended. -/
def insertOnConflict (t : List JobRow) (r : JobRow) : List JobRow :=
  if t.any (fun r0 => r0.job_id == r.job_id) then t else t ++ [r]

/-- `_count_duplicates`: `SELECT COUNT(*) FROM raw_jobs WHERE job_id IN (ids)`
evaluated against the current table contents. -/
def count_duplicates (t : List JobRow) (ids : List String) : Nat :=
  (t.filter (fun r => ids.contains r.job_id)).length

/-- `DuckDBLoader.load_jobs`: empty batches return 0 at once; otherwise the
row tuples are built (raising on a missing required field, before any insert),
`executemany` runs the conflict-ignoring insert for each row in order, and the
returned count is `len(jobs) - _count_duplicates(jobs)` where the duplicate
count is executed AFTER the insert.  The table component of the result is the
database state when the call returns (unchanged when it raises). -/
def load_jobs (t : List JobRow) (jobs : List Job) : Except String Int × List JobRow :=
  if jobs.isEmpty then (.ok 0, t)
  else
    match buildRows jobs with
    | .error e => (.error e, t)
    | .ok rows =>
      let t1 := rows.foldl insertOnConflict t
      let inserted : Int :=
        (jobs.length : Int) - (count_duplicates t1 (rows.map JobRow.job_id) : Int)
      (.ok inserted, t1)

end DuckDBLoader

/-- Observable content of a CSV file on disk: `os.path.getsize` yields
`size`, `os.path.getmtime` yields `mtime`, and iterating the open file
yields `lines` lines (an empty file has `lines = 0`). -/
structure FileData where
  size : Nat
  mtime : Int
  lines : Nat
deriving DecidableEq

/-- Entry of the persisted state mapping of `CSVMonitor` (one value of the
JSON dict keyed by path). -/
structure FileState where
  size : Nat
  mtime : Int
  last_check : String
  row_count : Int
deriving DecidableEq

namespace CSVMonitor

/-- The monitor's file system view: each path maps to the file found there,
`none` when `os.path.exists` is false. -/
def FS := String → Option FileData

/-- Python dict assignment `self.state[path] = entry`: replace the value at
an existing key, or add the key at the end. -/
def setState : List (String × FileState) → String → FileState → List (String × FileState)
  | [], p, e => [(p, e)]
  | (q, v) :: rest, p, e =>
    if q = p then (p, e) :: rest else (q, v) :: setState rest p e

/-- `CSVMonitor._count_rows`: `sum(1 for _ in f) - 1`, one subtracted for the
header line.  On an empty file this is `-1`; the `except` branch (returning 0)
only fires when reading itself fails. -/
def count_rows (f : FileData) : Int :=
  (f.lines : Int) - 1

/-- `CSVMonitor.check_csv`: returns `(has_changed, new_rows, file_size)` and
the state mapping after the call (the mapping is persisted whenever it is
mutated).  `now` is `datetime.now().isoformat()`. -/
def check_csv (st : List (String × FileState)) (fs : FS) (path : String)
    (now : String) : (Bool × Int × Nat) × List (String × FileState) :=
  match fs path with
  | none => ((false, 0, 0), st)
  | some f =>
    match st.lookup path with
    | none =>
      let e : FileState := ⟨f.size, f.mtime, now, count_rows f⟩
      ((true, e.row_count, f.size), setState st path e)
    | some prev =>
      if f.size ≠ prev.size then
        let cur := count_rows f
        let newRows := max 0 (cur - prev.row_count)
        ((true, newRows, f.size), setState st path ⟨f.size, f.mtime, now, cur⟩)
      else
        ((false, 0, f.size), st)

end CSVMonitor

/-- Warehouse table: column names plus rows of cells, a cell being `none`
when the value is SQL NULL. -/
structure DTable where
  cols : List String
  rows : List (List (Option String))

/-- Warehouse database: `(schema, table)` resolves to a table or to nothing,
in which case queries touching `schema.table` raise. -/
def Db := String → String → Option DTable

/-- Result dict of `get_table_stats` in the non-error case. -/
structure TableStats where
  rows : Nat
  cols : Nat
  col_names : List String

namespace DataInspector

/-- `DataInspector.get_table_stats`: `COUNT(*)` plus the column list from
`information_schema`; a missing table makes the count query raise, which the
method converts into an error dict. -/
def get_table_stats (db : Db) (schema table : String) : Except String TableStats :=
  match db schema table with
  | none => .error "table missing"
  | some t => .ok ⟨t.rows.length, t.cols.length, t.cols⟩

/-- Values of one column across all rows (a short row reads as NULL). -/
def colVals (t : DTable) (i : Nat) : List (Option String) :=
  t.rows.map (fun r => r.getD i none)

/-- `DataInspector.check_duplicates`: `GROUP BY key HAVING COUNT(*) > 1`,
then `len(result)` — the number of groups of size at least two.  A missing
table or key column makes the query raise, converted into an error dict. -/
def check_duplicates (db : Db) (schema table key : String) : Except String Nat :=
  match db schema table with
  | none => .error "table missing"
  | some t =>
    match t.cols.findIdx? (fun c => c == key) with
    | none => .error "column missing"
    | some i =>
      let vals := colVals t i
      .ok ((vals.dedup.filter (fun v => 1 < vals.count v)).length)

/-- `DataInspector.check_null_values`: for each column of the table, the
number of rows where it is NULL, kept only when positive.  For a missing
table the `information_schema` query returns no columns and the result is
the empty dict (no exception is raised). -/
def check_null_values (db : Db) (schema table : String) : List (String × Nat) :=
  match db schema table with
  | none => []
  | some t =>
    t.cols.enum.filterMap (fun ic =>
      let n := ((colVals t ic.1).filter (fun v => v = none)).length
      if 0 < n then some (ic.2, n) else none)

/-- Truncation toward zero, Python `int(...)` on a float. -/
def pytrunc (q : Rat) : Int :=
  if 0 ≤ q then ⌊q⌋ else -⌊-q⌋

/-- Duplicate-penalty statement of `get_quality_score`: with no key column
the score stays at 100; with one, `check_duplicates` returning an error dict
makes the `dup_count > 0` comparison raise, otherwise 10 is deducted when at
least one duplicate group exists. -/
def score_step1 (db : Db) (schema table : String) (key : Option String) :
    Except Unit Rat :=
  match key with
  | none => .ok 100
  | some k =>
    match check_duplicates db schema table k with
    | .error _ => .error ()
    | .ok n => .ok (if 0 < n then (100 : Rat) - 10 else 100)

/-- Null-penalty statement of `get_quality_score`: when the stats dict has a
`cols` entry, half of the percentage of null-affected columns is deducted (a
zero column count makes the division raise). -/
def score_step2 (db : Db) (schema table : String) (score1 : Rat) :
    Except Unit Rat :=
  match get_table_stats db schema table with
  | .error _ => .ok score1
  | .ok s =>
    if s.cols = 0 then .error ()
    else .ok (score1 -
      (((check_null_values db schema table).length : Rat) / (s.cols : Rat) * 100)
        * (1 / 2))

/-- Row-count statement of `get_quality_score`: a zero row count forces the
score to 0. -/
def score_step3 (db : Db) (schema table : String) (score2 : Rat) : Rat :=
  match get_table_stats db schema table with
  | .ok s => if s.rows = 0 then 0 else score2
  | .error _ => score2

/-- Body of the `try` block of `get_quality_score`: the three deduction
statements in source order, then `max(0, min(100, int(score)))`. -/
def quality_score_attempt (db : Db) (schema table : String)
    (key : Option String) : Except Unit Int :=
  match score_step1 db schema table key with
  | .error e => .error e
  | .ok score1 =>
    match score_step2 db schema table score1 with
    | .error e => .error e
    | .ok score2 =>
      .ok (max 0 (min 100 (pytrunc (score_step3 db schema table score2))))

/-- `DataInspector.get_quality_score`: the `try` body, with the bare
`except: return 0` around it. -/
def get_quality_score (db : Db) (schema table : String) (key : Option String) : Int :=
  match quality_score_attempt db schema table key with
  | .ok v => v
  | .error _ => 0

end DataInspector

end BuildCpg

open BuildCpg BuildCpg.DuckDBLoader BuildCpg.CSVMonitor BuildCpg.DataInspector

/-- Job record with all required fields present and key `i`. -/
def mkJob (i : String) : Job :=
  { job_id := some i, company := some "co", title := some "ti",
    source := some "feed", scraped_at := some "2025-01-01" }

/-- The table row `load_jobs` builds from `mkJob i`. -/
def mkRow (i : String) : JobRow :=
  ⟨i, "co", "ti", none, none, none, none, "feed", "2025-01-01"⟩

lemma buildRow_ok_job_id {j : Job} {r : JobRow} (h : buildRow j = .ok r) :
    j.job_id = some r.job_id := by
  unfold buildRow at h
  repeat' split at h
  all_goals try (injection h with h; subst h)
  all_goals simp_all

lemma buildRows_ok_length {jobs : List Job} {rows : List JobRow}
    (h : buildRows jobs = .ok rows) : rows.length = jobs.length := by
  induction jobs generalizing rows with
  | nil =>
    simp [buildRows] at h
    simp [← h]
  | cons j js ih =>
    cases hb : buildRow j with
    | error e => simp [buildRows, hb] at h
    | ok r =>
      cases hbs : buildRows js with
      | error e => simp [buildRows, hb, hbs] at h
      | ok rs =>
        simp only [buildRows, hb, hbs, Except.ok.injEq] at h
        subst h
        simp [ih hbs]

lemma buildRows_ok_ids {jobs : List Job} {rows : List JobRow}
    (h : buildRows jobs = .ok rows) :
    jobs.map Job.job_id = rows.map (fun r => some r.job_id) := by
  induction jobs generalizing rows with
  | nil =>
    simp [buildRows] at h
    simp [← h]
  | cons j js ih =>
    cases hb : buildRow j with
    | error e => simp [buildRows, hb] at h
    | ok r =>
      cases hbs : buildRows js with
      | error e => simp [buildRows, hb, hbs] at h
      | ok rs =>
        simp only [buildRows, hb, hbs, Except.ok.injEq] at h
        subst h
        simp [buildRow_ok_job_id hb, ih hbs]

lemma buildRows_error_of_missing_id {jobs : List Job} {j : Job}
    (hj : j ∈ jobs) (hid : j.job_id = none) :
    ∃ e, buildRows jobs = .error e := by
  induction jobs with
  | nil => cases hj
  | cons j0 js ih =>
    cases hb : buildRow j0 with
    | error e => exact ⟨e, by simp [buildRows, hb]⟩
    | ok r =>
      rcases List.mem_cons.mp hj with rfl | hmem
      · have hk := buildRow_ok_job_id hb
        rw [hid] at hk
        cases hk
      · obtain ⟨e, he⟩ := ih hmem
        exact ⟨e, by simp [buildRows, hb, he]⟩

lemma any_beq_eq_true_iff {t : List JobRow} {r : JobRow} :
    (t.any fun r0 => r0.job_id == r.job_id) = true ↔
      r.job_id ∈ t.map JobRow.job_id := by
  simp only [List.any_eq_true, List.mem_map, beq_iff_eq]

lemma insertOnConflict_eq_of_mem {t : List JobRow} {r : JobRow}
    (h : r.job_id ∈ t.map JobRow.job_id) : insertOnConflict t r = t := by
  unfold insertOnConflict
  rw [if_pos (any_beq_eq_true_iff.mpr h)]

lemma insertOnConflict_eq_append_of_not_mem {t : List JobRow} {r : JobRow}
    (h : r.job_id ∉ t.map JobRow.job_id) : insertOnConflict t r = t ++ [r] := by
  unfold insertOnConflict
  rw [if_neg (fun hc => h (any_beq_eq_true_iff.mp hc))]

lemma mem_map_insertOnConflict_self (t : List JobRow) (r : JobRow) :
    r.job_id ∈ (insertOnConflict t r).map JobRow.job_id := by
  by_cases h : r.job_id ∈ t.map JobRow.job_id
  · rw [insertOnConflict_eq_of_mem h]; exact h
  · rw [insertOnConflict_eq_append_of_not_mem h]; simp

lemma mem_map_insertOnConflict_mono {t : List JobRow} {x : String} (r : JobRow)
    (h : x ∈ t.map JobRow.job_id) :
    x ∈ (insertOnConflict t r).map JobRow.job_id := by
  by_cases hm : r.job_id ∈ t.map JobRow.job_id
  · rw [insertOnConflict_eq_of_mem hm]; exact h
  · rw [insertOnConflict_eq_append_of_not_mem hm]; simp [h]

lemma nodup_map_insertOnConflict {t : List JobRow} (r : JobRow)
    (h : (t.map JobRow.job_id).Nodup) :
    ((insertOnConflict t r).map JobRow.job_id).Nodup := by
  by_cases hm : r.job_id ∈ t.map JobRow.job_id
  · rw [insertOnConflict_eq_of_mem hm]; exact h
  · rw [insertOnConflict_eq_append_of_not_mem hm]
    simp [List.map_append, List.nodup_append, h, hm]

lemma mem_map_foldl_insert {rows : List JobRow} {t : List JobRow} {x : String}
    (h : x ∈ t.map JobRow.job_id) :
    x ∈ (rows.foldl insertOnConflict t).map JobRow.job_id := by
  induction rows generalizing t with
  | nil => exact h
  | cons r rs ih => exact ih (mem_map_insertOnConflict_mono r h)

lemma mem_map_foldl_insert_self {rows : List JobRow} {t : List JobRow} :
    ∀ r ∈ rows, r.job_id ∈ (rows.foldl insertOnConflict t).map JobRow.job_id := by
  induction rows generalizing t with
  | nil => intro r hr; cases hr
  | cons r0 rs ih =>
    intro r hr
    rcases List.mem_cons.mp hr with rfl | hmem
    · show r.job_id ∈ (rs.foldl insertOnConflict (insertOnConflict t r)).map JobRow.job_id
      exact mem_map_foldl_insert (mem_map_insertOnConflict_self t r)
    · show r.job_id ∈ (rs.foldl insertOnConflict (insertOnConflict t r0)).map JobRow.job_id
      exact ih r hmem

lemma foldl_insert_eq_of_forall_mem {rows : List JobRow} {t : List JobRow}
    (h : ∀ r ∈ rows, r.job_id ∈ t.map JobRow.job_id) :
    rows.foldl insertOnConflict t = t := by
  induction rows with
  | nil => rfl
  | cons r rs ih =>
    have h0 : insertOnConflict t r = t :=
      insertOnConflict_eq_of_mem (h r (List.mem_cons_self r rs))
    calc (r :: rs).foldl insertOnConflict t
        = rs.foldl insertOnConflict (insertOnConflict t r) := rfl
      _ = rs.foldl insertOnConflict t := by rw [h0]
      _ = t := ih (fun r' h' => h r' (List.mem_cons_of_mem _ h'))

lemma nodup_map_foldl_insert {rows : List JobRow} {t : List JobRow}
    (h : (t.map JobRow.job_id).Nodup) :
    ((rows.foldl insertOnConflict t).map JobRow.job_id).Nodup := by
  induction rows generalizing t with
  | nil => exact h
  | cons r rs ih => exact ih (nodup_map_insertOnConflict r h)

lemma filter_contains_length {l ids : List String} (hl : l.Nodup) (hi : ids.Nodup)
    (hsub : ∀ i ∈ ids, i ∈ l) :
    (l.filter (fun x => ids.contains x)).length = ids.length := by
  have hnd : (l.filter (fun x => ids.contains x)).Nodup := hl.filter _
  rw [← List.toFinset_card_of_nodup hnd, ← List.toFinset_card_of_nodup hi]
  congr 1
  ext x
  simp only [List.mem_toFinset, List.mem_filter, List.elem_eq_mem,
    decide_eq_true_eq, List.contains]
  constructor
  · rintro ⟨-, hx⟩
    exact hx
  · intro hx
    exact ⟨hsub x hx, hx⟩

lemma count_duplicates_eq {t : List JobRow} {ids : List String}
    (hT : (t.map JobRow.job_id).Nodup) (hI : ids.Nodup)
    (hsub : ∀ i ∈ ids, i ∈ t.map JobRow.job_id) :
    count_duplicates t ids = ids.length := by
  unfold count_duplicates
  rw [← List.countP_eq_length_filter]
  have hm : List.countP (fun x => ids.contains x) (t.map JobRow.job_id)
      = List.countP ((fun x => ids.contains x) ∘ JobRow.job_id) t :=
    List.countP_map _ _ _
  have hpred : List.countP (fun r => ids.contains r.job_id) t
      = List.countP (fun x => ids.contains x) (t.map JobRow.job_id) := by
    rw [hm]
    rfl
  rw [hpred, List.countP_eq_length_filter]
  exact filter_contains_length hT hI hsub

/-- Batch of five jobs with keys a–e, scenario B of the spec. -/
def jobsABCDE : List Job := ["a", "b", "c", "d", "e"].map mkJob

/-- The rows those five jobs insert. -/
def rowsABCDE : List JobRow := ["a", "b", "c", "d", "e"].map mkRow

/-- Second batch of scenario B: keys c–g, three of them already loaded. -/
def jobsCDEFG : List Job := ["c", "d", "e", "f", "g"].map mkJob

/-- The seven rows present after both scenario-B loads. -/
def rowsABCDEFG : List JobRow := ["a", "b", "c", "d", "e", "f", "g"].map mkRow

/-- C1: on scenario B the code returns `inserted = 0` for both calls, not 5
and 2 as specified: `_count_duplicates` runs after the conflict-ignoring
insert, when every key of the batch is already resident, so the subtraction
`len(jobs) - count` cancels to the number of intra-batch repeats.  The table
itself does end with the 7 expected rows. -/
theorem load_jobs_scenarioB_returns_zero :
    load_jobs [] jobsABCDE = (.ok 0, rowsABCDE)
    ∧ load_jobs rowsABCDE jobsCDEFG = (.ok 0, rowsABCDEFG)
    ∧ rowsABCDEFG.length = 7 :=
  ⟨rfl, rfl, rfl⟩

/-- C2 counterexample: for the batch `B = [x, x]` (the same key twice),
`load(B); load(B)` returns `inserted = 1` on the second call, not 0: the
post-insert count finds one resident row for the two batch records. -/
theorem load_jobs_repeat_dup_batch_counterexample :
    load_jobs [] [mkJob "x", mkJob "x"] = (.ok 1, [mkRow "x"])
    ∧ load_jobs [mkRow "x"] [mkJob "x", mkJob "x"] = (.ok 1, [mkRow "x"])
    ∧ (1 : Int) ≠ 0 :=
  ⟨rfl, rfl, by decide⟩

/-- C2 (amended): for a batch whose records carry pairwise distinct primary
keys, loaded into a table whose key column is duplicate free, the second of
two identical `load` calls returns `inserted = 0` and leaves the table
exactly as the first call left it. -/
theorem load_jobs_idempotent_distinct_keys
    (t t1 : List JobRow) (jobs : List Job) (n1 : Int)
    (hT : (t.map JobRow.job_id).Nodup)
    (hK : (jobs.map Job.job_id).Nodup)
    (h1 : load_jobs t jobs = (.ok n1, t1)) :
    load_jobs t1 jobs = (.ok 0, t1) := by
  unfold load_jobs at h1 ⊢
  by_cases hemp : jobs.isEmpty = true
  · rw [if_pos hemp]
  · rw [if_neg hemp] at h1 ⊢
    cases hbr : buildRows jobs with
    | error e =>
      rw [hbr] at h1
      exact absurd (congrArg Prod.fst h1) (by simp)
    | ok rows =>
      rw [hbr] at h1
      have ht1 : rows.foldl insertOnConflict t = t1 := congrArg Prod.snd h1
      subst ht1
      have hmem : ∀ r ∈ rows,
          r.job_id ∈ (rows.foldl insertOnConflict t).map JobRow.job_id :=
        fun r hr => mem_map_foldl_insert_self r hr
      have ht2 : rows.foldl insertOnConflict (rows.foldl insertOnConflict t)
          = rows.foldl insertOnConflict t :=
        foldl_insert_eq_of_forall_mem hmem
      have hnd : ((rows.foldl insertOnConflict t).map JobRow.job_id).Nodup :=
        nodup_map_foldl_insert hT
      have hIds : (rows.map JobRow.job_id).Nodup := by
        have hmapeq := buildRows_ok_ids hbr
        have hsome : ((rows.map JobRow.job_id).map some).Nodup := by
          rw [List.map_map]
          rw [hmapeq] at hK
          exact hK
        exact hsome.of_map some
      have hsub : ∀ i ∈ rows.map JobRow.job_id,
          i ∈ (rows.foldl insertOnConflict t).map JobRow.job_id := by
        intro i hi
        obtain ⟨r, hr, rfl⟩ := List.mem_map.mp hi
        exact hmem r hr
      have hcnt : count_duplicates (rows.foldl insertOnConflict t)
          (rows.map JobRow.job_id) = (rows.map JobRow.job_id).length :=
        count_duplicates_eq hnd hIds hsub
      have hcnt2 : (count_duplicates
          (rows.foldl insertOnConflict (rows.foldl insertOnConflict t))
          (rows.map JobRow.job_id) : Int) = (jobs.length : Int) := by
        rw [ht2, hcnt, List.length_map, buildRows_ok_length hbr]
      show (Except.ok ((jobs.length : Int) - (count_duplicates
          (rows.foldl insertOnConflict (rows.foldl insertOnConflict t))
          (rows.map JobRow.job_id) : Int)),
        rows.foldl insertOnConflict (rows.foldl insertOnConflict t))
        = ((Except.ok 0 : Except String Int), rows.foldl insertOnConflict t)
      rw [hcnt2, sub_self, ht2]

/-- C2 witness: two records with keys a and b, loaded twice from the empty
table, make the second call a no-op returning 0. -/
theorem load_jobs_idempotent_distinct_keys_witness :
    load_jobs [mkRow "a", mkRow "b"] [mkJob "a", mkJob "b"]
      = (.ok 0, [mkRow "a", mkRow "b"]) :=
  load_jobs_idempotent_distinct_keys [] [mkRow "a", mkRow "b"]
    [mkJob "a", mkJob "b"] 0 (by simp) (by decide) rfl

/-- C9: a batch containing a record without the primary-key field makes
`load_jobs` raise while building the row tuples, before any insert runs, and
the call leaves the table exactly as it was — no partial insert of the valid
records. -/
theorem load_jobs_missing_key_rejects_batch
    (t : List JobRow) (jobs : List Job) (j : Job)
    (hj : j ∈ jobs) (hid : j.job_id = none) :
    ∃ e, load_jobs t jobs = (.error e, t) := by
  obtain ⟨e, he⟩ := buildRows_error_of_missing_id hj hid
  refine ⟨e, ?_⟩
  have hne : ¬jobs.isEmpty = true := by
    cases jobs with
    | nil => cases hj
    | cons a l => simp
  unfold load_jobs
  rw [if_neg hne, he]

/-- Job record with every required field except the primary key. -/
def jobNoId : Job :=
  { company := some "co", title := some "ti",
    source := some "feed", scraped_at := some "2025-01-01" }

/-- C9 witness: a two-record batch whose second record lacks `job_id` is
rejected whole on the empty table. -/
theorem load_jobs_missing_key_rejects_batch_witness :
    ∃ e, load_jobs [] [mkJob "a", jobNoId] = (.error e, []) :=
  load_jobs_missing_key_rejects_batch [] [mkJob "a", jobNoId] jobNoId
    (by decide) rfl

lemma lookup_setState_self (st : List (String × FileState)) (p : String)
    (e : FileState) : (setState st p e).lookup p = some e := by
  induction st with
  | nil => simp [setState, List.lookup]
  | cons hd rest ih =>
    obtain ⟨q, v⟩ := hd
    by_cases hq : q = p
    · simp [setState, hq, List.lookup]
    · have hbeq : (p == q) = false := by
        simp [beq_iff_eq]
        exact fun hc => hq hc.symm
      simp only [setState, if_neg hq, List.lookup, hbeq]
      exact ih

/-- C4: the first observation of an existing file reports a change, estimates
the new rows as the file's full row count (line count minus the header line),
and creates the state entry for the path. -/
theorem check_csv_first_observation
    (st : List (String × FileState)) (fs : FS) (path now : String) (f : FileData)
    (hs : st.lookup path = none) (hf : fs path = some f) :
    check_csv st fs path now
      = ((true, (f.lines : Int) - 1, f.size),
         setState st path ⟨f.size, f.mtime, now, (f.lines : Int) - 1⟩)
    ∧ ((check_csv st fs path now).2).lookup path
      = some ⟨f.size, f.mtime, now, (f.lines : Int) - 1⟩ := by
  have hmain : check_csv st fs path now
      = ((true, (f.lines : Int) - 1, f.size),
         setState st path ⟨f.size, f.mtime, now, (f.lines : Int) - 1⟩) := by
    unfold check_csv
    rw [hf, hs]
    rfl
  refine ⟨hmain, ?_⟩
  rw [hmain]
  exact lookup_setState_self st path _

/-- A 37-byte, 4-line CSV file. -/
def fileC4 : FileData := ⟨37, 6, 4⟩

/-- File system containing only `a.csv` holding `fileC4`. -/
def fsC4 : FS := fun p => if p = "a.csv" then some fileC4 else none

/-- C4 witness: first check of the 4-line file reports 3 data rows and
creates the entry. -/
theorem check_csv_first_observation_witness :
    check_csv [] fsC4 "a.csv" "t0"
      = ((true, (fileC4.lines : Int) - 1, fileC4.size),
         setState [] "a.csv"
           ⟨fileC4.size, fileC4.mtime, "t0", (fileC4.lines : Int) - 1⟩)
    ∧ ((check_csv [] fsC4 "a.csv" "t0").2).lookup "a.csv"
      = some ⟨fileC4.size, fileC4.mtime, "t0", (fileC4.lines : Int) - 1⟩ :=
  check_csv_first_observation [] fsC4 "a.csv" "t0" fileC4 rfl rfl

/-- File system containing only the empty file `empty.csv` (0 bytes, no
lines). -/
def fsEmptyCsv : FS := fun p => if p = "empty.csv" then some ⟨0, 0, 0⟩ else none

/-- C5: checking an empty file writes a state entry whose `row_count` is
`-1`, violating the `row_count ≥ 0` invariant — `sum(1 for _ in f) - 1`
evaluates to `-1` when the file has no lines, and that value is persisted. -/
theorem check_csv_writes_negative_row_count_for_empty_file :
    ((check_csv [] fsEmptyCsv "empty.csv" "t0").2).lookup "empty.csv"
      = some ⟨0, 0, "t0", -1⟩
    ∧ (-1 : Int) < 0 :=
  ⟨rfl, by decide⟩

lemma check_csv_noop_of_size_eq (st : List (String × FileState)) (fs : FS)
    (path now : String) (f : FileData) (prev : FileState)
    (hl : st.lookup path = some prev) (hf : fs path = some f)
    (hsz : f.size = prev.size) :
    check_csv st fs path now = ((false, 0, f.size), st) := by
  simp [check_csv, hf, hl, hsz]

/-- C8: when the stored size of a known path equals the file's current size,
`check_csv` reports no change with estimate 0, returns the state untouched
(nothing is recomputed or persisted); consequently the second of two
consecutive checks with no modification in between always reports
`changed = false`. -/
theorem check_csv_unchanged_size_is_noop
    (st : List (String × FileState)) (fs : FS) (path now : String)
    (f : FileData) (prev : FileState)
    (hs : st.lookup path = some prev) (hf : fs path = some f)
    (hsz : f.size = prev.size) :
    check_csv st fs path now = ((false, 0, f.size), st)
    ∧ ∀ (st0 : List (String × FileState)) (now1 now2 : String),
        ((check_csv (check_csv st0 fs path now1).2 fs path now2).1).1 = false := by
  refine ⟨check_csv_noop_of_size_eq st fs path now f prev hs hf hsz, ?_⟩
  intro st0 now1 now2
  cases hl0 : st0.lookup path with
  | none =>
    have h1 : check_csv st0 fs path now1
        = ((true, count_rows f, f.size),
           setState st0 path ⟨f.size, f.mtime, now1, count_rows f⟩) := by
      simp [check_csv, hf, hl0]
    rw [h1]
    have h2 : check_csv (setState st0 path ⟨f.size, f.mtime, now1, count_rows f⟩)
        fs path now2
        = ((false, 0, f.size),
           setState st0 path ⟨f.size, f.mtime, now1, count_rows f⟩) :=
      check_csv_noop_of_size_eq _ fs path now2 f _
        (lookup_setState_self st0 path _) hf rfl
    rw [h2]
  | some prev0 =>
    by_cases hch : f.size = prev0.size
    · have h1 : check_csv st0 fs path now1 = ((false, 0, f.size), st0) :=
        check_csv_noop_of_size_eq st0 fs path now1 f prev0 hl0 hf hch
      rw [h1]
      have h2 : check_csv st0 fs path now2 = ((false, 0, f.size), st0) :=
        check_csv_noop_of_size_eq st0 fs path now2 f prev0 hl0 hf hch
      rw [h2]
    · have h1 : check_csv st0 fs path now1
          = ((true, max 0 (count_rows f - prev0.row_count), f.size),
             setState st0 path ⟨f.size, f.mtime, now1, count_rows f⟩) := by
        simp [check_csv, hf, hl0, hch]
      rw [h1]
      have h2 : check_csv (setState st0 path ⟨f.size, f.mtime, now1, count_rows f⟩)
          fs path now2
          = ((false, 0, f.size),
             setState st0 path ⟨f.size, f.mtime, now1, count_rows f⟩) :=
        check_csv_noop_of_size_eq _ fs path now2 f _
          (lookup_setState_self st0 path _) hf rfl
      rw [h2]

/-- State mapping already holding an entry for `a.csv` with the same size as
`fileC4`. -/
def stC8 : List (String × FileState) := [("a.csv", ⟨37, 6, "t", 3⟩)]

/-- C8 witness: with the stored size matching, the check is a no-op, and two
consecutive checks from the empty state report no change on the second. -/
theorem check_csv_unchanged_size_is_noop_witness :
    check_csv stC8 fsC4 "a.csv" "t9" = ((false, 0, 37), stC8)
    ∧ ((check_csv (check_csv [] fsC4 "a.csv" "t1").2 fsC4 "a.csv" "t2").1).1
      = false := by
  have h := check_csv_unchanged_size_is_noop stC8 fsC4 "a.csv" "t9"
    fileC4 ⟨37, 6, "t", 3⟩ rfl rfl rfl
  exact ⟨h.1, h.2 [] "t1" "t2"⟩

/-- C7: for a table absent from the warehouse, the score is 100 without a key
column (error dicts and empty results disable every penalty) but 0 with one
(the duplicate check's error dict breaks the comparison and the bare `except`
returns 0). -/
theorem get_quality_score_missing_table (db : Db) (schema table : String)
    (hdb : db schema table = none) :
    get_quality_score db schema table none = 100
    ∧ ∀ k, get_quality_score db schema table (some k) = 0 := by
  have hstats : get_table_stats db schema table = .error "table missing" := by
    simp [get_table_stats, hdb]
  have hnull : check_null_values db schema table = [] := by
    simp [check_null_values, hdb]
  have hdup : ∀ k, check_duplicates db schema table k = .error "table missing" := by
    intro k
    simp [check_duplicates, hdb]
  constructor
  · simp [get_quality_score, quality_score_attempt, score_step1, score_step2,
      score_step3, hstats, hnull, pytrunc]
  · intro k
    simp [get_quality_score, quality_score_attempt, score_step1, hdup k]

/-- Warehouse with no tables at all. -/
def dbEmpty : Db := fun _ _ => none

/-- C7 witness: scoring a table that does not exist gives 100 with no key
column and 0 with one. -/
theorem get_quality_score_missing_table_witness :
    get_quality_score dbEmpty "m" "jobs" none = 100
    ∧ get_quality_score dbEmpty "m" "jobs" (some "job_id") = 0 := by
  have h := get_quality_score_missing_table dbEmpty "m" "jobs" rfl
  exact ⟨h.1, h.2 "job_id"⟩

lemma dedup_filter_length {α : Type} [DecidableEq α] (l : List α) (q : α → Bool) :
    (l.dedup.filter q).length = (l.toFinset.filter (fun v => q v = true)).card := by
  have hnd : (l.dedup.filter q).Nodup := l.nodup_dedup.filter q
  rw [← List.toFinset_card_of_nodup hnd]
  congr 1
  ext x
  simp [List.mem_toFinset, List.mem_filter, List.mem_dedup]

/-- C10: `check_duplicates` returns the number of distinct key values that
occur in more than one row — the count of groups of size greater than one
when grouping the key column — not the total number of duplicated rows. -/
theorem check_duplicates_counts_groups (db : Db) (schema table k : String)
    (t : DTable) (i : Nat) (hdb : db schema table = some t)
    (hidx : t.cols.findIdx? (fun c => c == k) = some i) :
    check_duplicates db schema table k
      = .ok (((colVals t i).toFinset.filter
          (fun v => 1 < (colVals t i).count v)).card) := by
  simp only [check_duplicates, hdb, hidx]
  rw [dedup_filter_length]
  congr 1
  simp [decide_eq_true_eq]


lemma gqs_eq_of_steps (db : Db) (s tbl : String) (key : Option String)
    (sc1 sc2 : Rat)
    (h1 : score_step1 db s tbl key = .ok sc1)
    (h2 : score_step2 db s tbl sc1 = .ok sc2) :
    get_quality_score db s tbl key
      = max 0 (min 100 (pytrunc (score_step3 db s tbl sc2))) := by
  simp [get_quality_score, quality_score_attempt, h1, h2]

lemma gqs_eq_zero_of_step1_error (db : Db) (s tbl : String)
    (key : Option String) (e : Unit)
    (h1 : score_step1 db s tbl key = .error e) :
    get_quality_score db s tbl key = 0 := by
  simp [get_quality_score, quality_score_attempt, h1]

lemma gqs_eq_zero_of_step2_error (db : Db) (s tbl : String)
    (key : Option String) (sc1 : Rat) (e : Unit)
    (h1 : score_step1 db s tbl key = .ok sc1)
    (h2 : score_step2 db s tbl sc1 = .error e) :
    get_quality_score db s tbl key = 0 := by
  simp [get_quality_score, quality_score_attempt, h1, h2]

lemma quality_score_attempt_ok_clamped {db : Db} {s tbl : String}
    {key : Option String} {v : Int}
    (h : quality_score_attempt db s tbl key = .ok v) :
    ∃ q : Rat, v = max 0 (min 100 (pytrunc q)) := by
  unfold quality_score_attempt at h
  repeat' split at h
  all_goals first
    | exact ⟨_, (Except.ok.inj h).symm⟩
    | exact Except.noConfusion h

lemma get_quality_score_mem_range (db : Db) (s tbl : String)
    (key : Option String) :
    0 ≤ get_quality_score db s tbl key ∧ get_quality_score db s tbl key ≤ 100 := by
  cases hatt : quality_score_attempt db s tbl key with
  | error e =>
    have h0 : get_quality_score db s tbl key = 0 := by
      simp [get_quality_score, hatt]
    rw [h0]
    constructor <;> norm_num
  | ok v =>
    have hv : get_quality_score db s tbl key = v := by
      simp [get_quality_score, hatt]
    rw [hv]
    obtain ⟨q, rfl⟩ := quality_score_attempt_ok_clamped hatt
    constructor
    · exact le_max_left _ _
    · exact max_le (by norm_num) (min_le_left _ _)

lemma get_quality_score_zero_rows (db : Db) (s tbl : String)
    (key : Option String) (t : DTable)
    (hdb : db s tbl = some t) (hrows : t.rows = []) :
    get_quality_score db s tbl key = 0 := by
  have hstats : get_table_stats db s tbl = .ok ⟨0, t.cols.length, t.cols⟩ := by
    simp [get_table_stats, hdb, hrows]
  cases h1 : score_step1 db s tbl key with
  | error e => exact gqs_eq_zero_of_step1_error db s tbl key e h1
  | ok sc1 =>
    cases h2 : score_step2 db s tbl sc1 with
    | error e => exact gqs_eq_zero_of_step2_error db s tbl key sc1 e h1 h2
    | ok sc2 =>
      rw [gqs_eq_of_steps db s tbl key sc1 sc2 h1 h2]
      rw [show score_step3 db s tbl sc2 = 0 from by simp [score_step3, hstats]]
      simp [pytrunc]

lemma pytrunc_mono {a b : Rat} (h : a ≤ b) : pytrunc a ≤ pytrunc b := by
  unfold pytrunc
  by_cases ha : 0 ≤ a
  · rw [if_pos ha, if_pos (le_trans ha h)]
    exact Int.floor_le_floor h
  · rw [if_neg ha]
    by_cases hb : 0 ≤ b
    · rw [if_pos hb]
      have h1 : (0 : Int) ≤ ⌊-a⌋ := Int.floor_nonneg.mpr (by linarith)
      have h2 : (0 : Int) ≤ ⌊b⌋ := Int.floor_nonneg.mpr hb
      linarith
    · rw [if_neg hb]
      have hba : -b ≤ -a := by linarith
      have := Int.floor_le_floor hba
      linarith

lemma gqs_some_le_none (db : Db) (s tbl k : String) :
    get_quality_score db s tbl (some k) ≤ get_quality_score db s tbl none := by
  have h1n : score_step1 db s tbl none = .ok 100 := rfl
  cases hd : check_duplicates db s tbl k with
  | error e =>
    have hz : get_quality_score db s tbl (some k) = 0 :=
      gqs_eq_zero_of_step1_error db s tbl (some k) ()
        (by simp [score_step1, hd])
    rw [hz]
    exact (get_quality_score_mem_range db s tbl none).1
  | ok n =>
    have h1s : score_step1 db s tbl (some k)
        = .ok (if 0 < n then (100 : Rat) - 10 else 100) := by
      simp [score_step1, hd]
    set sc1 : Rat := if 0 < n then (100 : Rat) - 10 else 100 with hsc1
    have hle : sc1 ≤ 100 := by
      rw [hsc1]
      split <;> norm_num
    cases hstats : get_table_stats db s tbl with
    | error e =>
      have h2s : score_step2 db s tbl sc1 = .ok sc1 := by
        simp [score_step2, hstats]
      have h2n : score_step2 db s tbl (100 : Rat) = .ok 100 := by
        simp [score_step2, hstats]
      rw [gqs_eq_of_steps db s tbl (some k) sc1 sc1 h1s h2s,
        gqs_eq_of_steps db s tbl none 100 100 h1n h2n]
      have h3s : score_step3 db s tbl sc1 = sc1 := by
        simp [score_step3, hstats]
      have h3n : score_step3 db s tbl (100 : Rat) = 100 := by
        simp [score_step3, hstats]
      rw [h3s, h3n]
      exact max_le_max (le_refl 0)
        (min_le_min (le_refl 100) (pytrunc_mono hle))
    | ok st =>
      by_cases hc : st.cols = 0
      · have h2s : score_step2 db s tbl sc1 = .error () := by
          simp [score_step2, hstats, hc]
        have h2n : score_step2 db s tbl (100 : Rat) = .error () := by
          simp [score_step2, hstats, hc]
        rw [gqs_eq_zero_of_step2_error db s tbl (some k) sc1 () h1s h2s,
          gqs_eq_zero_of_step2_error db s tbl none 100 () h1n h2n]
      · have h2s : score_step2 db s tbl sc1
            = .ok (sc1 - (((check_null_values db s tbl).length : Rat)
                / (st.cols : Rat) * 100) * (1 / 2)) := by
          simp [score_step2, hstats, hc]
        have h2n : score_step2 db s tbl (100 : Rat)
            = .ok ((100 : Rat) - (((check_null_values db s tbl).length : Rat)
                / (st.cols : Rat) * 100) * (1 / 2)) := by
          simp [score_step2, hstats, hc]
        rw [gqs_eq_of_steps db s tbl (some k) sc1 _ h1s h2s,
          gqs_eq_of_steps db s tbl none 100 _ h1n h2n]
        by_cases hr : st.rows = 0
        · rw [show score_step3 db s tbl (sc1
              - (((check_null_values db s tbl).length : Rat)
                / (st.cols : Rat) * 100) * (1 / 2)) = (0 : Rat)
            from by simp [score_step3, hstats, hr]]
          rw [show score_step3 db s tbl ((100 : Rat)
              - (((check_null_values db s tbl).length : Rat)
                / (st.cols : Rat) * 100) * (1 / 2)) = (0 : Rat)
            from by simp [score_step3, hstats, hr]]
        · rw [show score_step3 db s tbl (sc1
              - (((check_null_values db s tbl).length : Rat)
                / (st.cols : Rat) * 100) * (1 / 2))
              = sc1 - (((check_null_values db s tbl).length : Rat)
                / (st.cols : Rat) * 100) * (1 / 2)
            from by simp [score_step3, hstats, hr]]
          rw [show score_step3 db s tbl ((100 : Rat)
              - (((check_null_values db s tbl).length : Rat)
                / (st.cols : Rat) * 100) * (1 / 2))
              = (100 : Rat) - (((check_null_values db s tbl).length : Rat)
                / (st.cols : Rat) * 100) * (1 / 2)
            from by simp [score_step3, hstats, hr]]
          have hsub : sc1 - (((check_null_values db s tbl).length : Rat)
                / (st.cols : Rat) * 100) * (1 / 2)
              ≤ (100 : Rat) - (((check_null_values db s tbl).length : Rat)
                / (st.cols : Rat) * 100) * (1 / 2) := by
            linarith
          exact max_le_max (le_refl 0)
            (min_le_min (le_refl 100) (pytrunc_mono hsub))

/-- C6: scoring never raises: an internal error in the `try` body yields 0,
the result is always an integer in [0, 100], a zero-row table yields exactly
0, and without a key column the duplicate penalty is never applied (the score
with any key column never exceeds the keyless score). -/
theorem get_quality_score_total_bounded (db : Db) (schema table : String)
    (key : Option String) :
    (0 ≤ get_quality_score db schema table key
      ∧ get_quality_score db schema table key ≤ 100)
    ∧ (quality_score_attempt db schema table key = .error () →
        get_quality_score db schema table key = 0)
    ∧ (∀ t, db schema table = some t → t.rows = [] →
        get_quality_score db schema table key = 0)
    ∧ (∀ k, get_quality_score db schema table (some k)
        ≤ get_quality_score db schema table none) := by
  refine ⟨get_quality_score_mem_range db schema table key, ?_, ?_, ?_⟩
  · intro he
    simp [get_quality_score, he]
  · intro t hdb hrows
    exact get_quality_score_zero_rows db schema table key t hdb hrows
  · intro k
    exact gqs_some_le_none db schema table k

/-- One-column table with no rows. -/
def tZero : DTable := ⟨["x"], []⟩

/-- Warehouse where every name resolves to the zero-row table. -/
def dbZero : Db := fun _ _ => some tZero

/-- C6 witness: on the zero-row table the score is in range, equals 0, and a
keyed score does not exceed the keyless one. -/
theorem get_quality_score_total_bounded_witness :
    (0 ≤ get_quality_score dbZero "m" "t" none)
    ∧ get_quality_score dbZero "m" "t" none = 0
    ∧ get_quality_score dbZero "m" "t" (some "x")
      ≤ get_quality_score dbZero "m" "t" none := by
  have h := get_quality_score_total_bounded dbZero "m" "t" none
  exact ⟨h.1.1, h.2.2.1 tZero rfl rfl, h.2.2.2 "x"⟩

/-- Number of columns of the table that contain at least one NULL cell. -/
def nullAffectedCols (t : DTable) : Nat :=
  ((List.range t.cols.length).filter
    (fun i => (colVals t i).any (fun v => v = none))).length

/-- Whether the key column holds some value occurring in more than one row. -/
def keyHasDup (t : DTable) (k : String) : Bool :=
  match t.cols.findIdx? (fun c => c == k) with
  | none => false
  | some i => (colVals t i).any (fun v => 1 < (colVals t i).count v)

/-- Whether the flat 10-point duplicate penalty applies: a key column is
supplied and it has at least one duplicated value. -/
def dupPenaltyApplies (t : DTable) (key : Option String) : Bool :=
  match key with
  | none => false
  | some k => keyHasDup t k

lemma length_filterMap_eq_countP {α β : Type} (f : α → Option β) (l : List α) :
    (l.filterMap f).length = l.countP (fun a => (f a).isSome) := by
  induction l with
  | nil => rfl
  | cons a l ih =>
    cases hf : f a <;>
      simp [List.filterMap_cons, hf, List.countP_cons, ih]

lemma nullAffectedCols_le (t : DTable) : nullAffectedCols t ≤ t.cols.length := by
  calc nullAffectedCols t ≤ (List.range t.cols.length).length :=
        List.length_filter_le _ _
    _ = t.cols.length := List.length_range _

lemma check_null_values_length (db : Db) (schema table : String) (t : DTable)
    (hdb : db schema table = some t) :
    (check_null_values db schema table).length = nullAffectedCols t := by
  have hcnv : check_null_values db schema table
      = t.cols.enum.filterMap (fun ic =>
          if 0 < ((colVals t ic.1).filter (fun v => v = none)).length
          then some (ic.2, ((colVals t ic.1).filter (fun v => v = none)).length)
          else none) := by
    simp [check_null_values, hdb]
  rw [hcnv, length_filterMap_eq_countP]
  have hstep : List.countP (fun ic =>
        (if 0 < ((colVals t ic.1).filter (fun v => v = none)).length
         then some (ic.2, ((colVals t ic.1).filter (fun v => v = none)).length)
         else none).isSome) t.cols.enum
      = List.countP (fun ic =>
          decide (0 < ((colVals t ic.1).filter (fun v => v = none)).length))
        t.cols.enum := by
    apply List.countP_congr
    intro ic _
    constructor <;> intro hx <;> (revert hx; split <;> simp_all)
  rw [hstep]
  have hmap : List.countP (fun i =>
        decide (0 < ((colVals t i).filter (fun v => v = none)).length))
        (t.cols.enum.map Prod.fst)
      = List.countP (fun ic =>
          decide (0 < ((colVals t ic.1).filter (fun v => v = none)).length))
        t.cols.enum :=
    List.countP_map _ _ _
  rw [← hmap, List.enum_map_fst]
  unfold nullAffectedCols
  rw [← List.countP_eq_length_filter]
  apply List.countP_congr
  intro i _
  rw [← List.countP_eq_length_filter]
  simp only [decide_eq_true_eq, List.countP_pos_iff, List.any_eq_true]

lemma keyHasDup_iff (t : DTable) (k : String) (i : Nat)
    (hidx : t.cols.findIdx? (fun c => c == k) = some i) :
    (0 < ((colVals t i).dedup.filter
        (fun v => 1 < (colVals t i).count v)).length)
      ↔ keyHasDup t k = true := by
  unfold keyHasDup
  rw [hidx]
  rw [← List.countP_eq_length_filter, List.countP_pos_iff]
  simp [List.any_eq_true, List.mem_dedup]

lemma clamp_pytrunc_eq_floor {v : Rat} (h0 : 0 ≤ v) (h100 : v ≤ 100) :
    max 0 (min 100 (pytrunc v)) = ⌊v⌋ := by
  unfold pytrunc
  rw [if_pos h0]
  have h1 : (0 : Int) ≤ ⌊v⌋ := Int.floor_nonneg.mpr h0
  have h2 : ⌊v⌋ ≤ 100 := by
    have hf := Int.floor_le_floor h100
    simpa using hf
  rw [min_eq_right h2, max_eq_right h1]

/-- Scenario-C table: 3 columns, 4 rows, NULLs in exactly one column. -/
def tScenC : DTable :=
  ⟨["x", "y", "z"],
   [[some "1", some "p", some "u"],
    [some "2", none, some "u"],
    [some "3", some "q", some "u"],
    [some "4", some "r", some "u"]]⟩

/-- Warehouse holding only `m.jobs` with the scenario-C table. -/
def dbScenC : Db := fun s t => if s = "m" ∧ t = "jobs" then some tScenC else none

/-- C3: for an existing table (with a genuine key column when one is
supplied), the score is exactly 0 on a zero-row table and otherwise the
truncation of `100 - (10 if the key has duplicates) - 0.5 × (percentage of
columns with NULLs)` (the [0, 100] clamp never binds because the deductions
total at most 60); on the concrete 4-row, 3-column scenario-C table without a
key column the score is 83. -/
theorem get_quality_score_formula :
    (∀ (db : Db) (schema table : String) (t : DTable) (key : Option String),
      db schema table = some t → t.cols ≠ [] →
      (∀ k, key = some k → ∃ i, t.cols.findIdx? (fun c => c == k) = some i) →
      get_quality_score db schema table key =
        if t.rows.length = 0 then 0
        else
          ⌊(100 : Rat)
            - (if dupPenaltyApplies t key = true then 10 else 0)
            - ((nullAffectedCols t : Rat) / (t.cols.length : Rat) * 100)
              * (1 / 2)⌋)
    ∧ get_quality_score dbScenC "m" "jobs" none = 83 := by
  have hmain : ∀ (db : Db) (schema table : String) (t : DTable)
      (key : Option String),
      db schema table = some t → t.cols ≠ [] →
      (∀ k, key = some k → ∃ i, t.cols.findIdx? (fun c => c == k) = some i) →
      get_quality_score db schema table key =
        if t.rows.length = 0 then 0
        else
          ⌊(100 : Rat)
            - (if dupPenaltyApplies t key = true then 10 else 0)
            - ((nullAffectedCols t : Rat) / (t.cols.length : Rat) * 100)
              * (1 / 2)⌋ := by
    intro db schema table t key hdb hc hkey
    have hcols0 : t.cols.length ≠ 0 := fun h => hc (List.length_eq_zero.mp h)
    have hstats : get_table_stats db schema table
        = .ok ⟨t.rows.length, t.cols.length, t.cols⟩ := by
      simp [get_table_stats, hdb]
    have hnlen : (check_null_values db schema table).length = nullAffectedCols t :=
      check_null_values_length db schema table t hdb
    obtain ⟨sc1, h1, hsc1⟩ : ∃ sc1, score_step1 db schema table key = .ok sc1
        ∧ sc1 = (100 : Rat) - (if dupPenaltyApplies t key = true then 10 else 0) := by
      cases key with
      | none => exact ⟨100, rfl, by norm_num [dupPenaltyApplies]⟩
      | some k =>
        obtain ⟨i, hidx⟩ := hkey k rfl
        have hdup : check_duplicates db schema table k
            = .ok (((colVals t i).dedup.filter
                (fun v => 1 < (colVals t i).count v)).length) := by
          simp [check_duplicates, hdb, hidx]
        refine ⟨if 0 < ((colVals t i).dedup.filter
            (fun v => 1 < (colVals t i).count v)).length
          then (100 : Rat) - 10 else 100, by simp [score_step1, hdup], ?_⟩
        have hiff := keyHasDup_iff t k i hidx
        by_cases hdp : keyHasDup t k = true
        · rw [if_pos (hiff.mpr hdp)]
          simp [dupPenaltyApplies, hdp]
        · rw [if_neg (fun hpos => hdp (hiff.mp hpos))]
          simp [dupPenaltyApplies, hdp]
    have h2 : score_step2 db schema table sc1
        = .ok (sc1 - ((nullAffectedCols t : Rat) / (t.cols.length : Rat) * 100)
            * (1 / 2)) := by
      simp [score_step2, hstats, hcols0, hnlen]
    rw [gqs_eq_of_steps db schema table key sc1 _ h1 h2]
    by_cases hr : t.rows.length = 0
    · rw [if_pos hr]
      rw [show score_step3 db schema table
          (sc1 - ((nullAffectedCols t : Rat) / (t.cols.length : Rat) * 100)
            * (1 / 2)) = (0 : Rat) from by simp [score_step3, hstats, hr]]
      simp [pytrunc]
    · rw [if_neg hr]
      rw [show score_step3 db schema table
          (sc1 - ((nullAffectedCols t : Rat) / (t.cols.length : Rat) * 100)
            * (1 / 2))
          = sc1 - ((nullAffectedCols t : Rat) / (t.cols.length : Rat) * 100)
            * (1 / 2) from by simp [score_step3, hstats, hr]]
      have hnc : (nullAffectedCols t : Rat) ≤ (t.cols.length : Rat) := by
        exact_mod_cast nullAffectedCols_le t
      have hcpos : (0 : Rat) < (t.cols.length : Rat) := by
        exact_mod_cast Nat.pos_of_ne_zero hcols0
      have hratio : (nullAffectedCols t : Rat) / (t.cols.length : Rat) ≤ 1 := by
        rw [div_le_one hcpos]
        exact hnc
      have hratio0 : 0 ≤ (nullAffectedCols t : Rat) / (t.cols.length : Rat) := by
        positivity
      have hD0 : 0 ≤ ((nullAffectedCols t : Rat) / (t.cols.length : Rat) * 100)
          * (1 / 2) := by positivity
      have hDle : ((nullAffectedCols t : Rat) / (t.cols.length : Rat) * 100)
          * (1 / 2) ≤ 50 := by nlinarith
      have hpen0 : (0 : Rat)
          ≤ (if dupPenaltyApplies t key = true then 10 else 0) := by
        split <;> norm_num
      have hpen10 : (if dupPenaltyApplies t key = true then (10 : Rat) else 0)
          ≤ 10 := by
        split <;> norm_num
      rw [hsc1]
      apply clamp_pytrunc_eq_floor
      · linarith
      · linarith
  refine ⟨hmain, ?_⟩
  have h := hmain dbScenC "m" "jobs" tScenC none rfl (by decide)
    (fun k hk => Option.noConfusion hk)
  rw [h]
  rw [show nullAffectedCols tScenC = 1 from by decide]
  norm_num [tScenC, dupPenaltyApplies]

/-- C3 witness: the formula applied to the concrete scenario-C table with no
key column. -/
theorem get_quality_score_formula_witness :
    get_quality_score dbScenC "m" "jobs" none
      = (if tScenC.rows.length = 0 then 0
         else
          ⌊(100 : Rat)
            - (if dupPenaltyApplies tScenC none = true then 10 else 0)
            - ((nullAffectedCols tScenC : Rat) / (tScenC.cols.length : Rat) * 100)
              * (1 / 2)⌋) :=
  get_quality_score_formula.1 dbScenC "m" "jobs" tScenC none rfl (by decide)
    (fun k hk => Option.noConfusion hk)

/-- Single-key-column table with values 1,1,2,1,2,3: two duplicated values. -/
def tDup : DTable :=
  ⟨["k"], [[some "1"], [some "1"], [some "2"], [some "1"], [some "2"], [some "3"]]⟩

/-- Warehouse holding only `m.jobs` with the duplicated-key table. -/
def dbDup : Db := fun s t => if s = "m" ∧ t = "jobs" then some tDup else none

/-- C10 witness: on the 6-row table with key values 1,1,2,1,2,3 the
duplicate count is the number of duplicated values (2), not the number of
duplicated rows. -/
theorem check_duplicates_counts_groups_witness :
    check_duplicates dbDup "m" "jobs" "k"
      = .ok (((colVals tDup 0).toFinset.filter
          (fun v => 1 < (colVals tDup 0).count v)).card)
    ∧ ((colVals tDup 0).toFinset.filter
        (fun v => 1 < (colVals tDup 0).count v)).card = 2 :=
  ⟨check_duplicates_counts_groups dbDup "m" "jobs" "k" tDup 0 rfl rfl,
   by decide⟩
